import Mathlib

/-!
Verification of the blunderbuss core against its specification.

The development shallowly embeds the three core modules the claims touch:

* `sr.py`            — the SM-2 spaced-repetition update (`sm2_update`);
* `selection.py`     — weighted random puzzle selection (`choose_weighted`,
                       `filter_recent`, `select_puzzle`);
* `pgn_parser.py`    — the live commentary analyzer and candidate builder
                       (`parse_comment_for_eval`, `extract_puzzles_from_pgn`),
                       together with the legacy exclusion rule from
                       `parser.py` (line 126), which is compared in C9.

Python floats are embedded as exact rationals (ℚ); machine rounding error
plays no role in any claim.  Python `None` is embedded as `Option`.  The
random draws of `selection.py` are passed in explicitly (a rational for
`random.random()` and an index for `random.choice`), making every function
a deterministic, executable Lean definition.
-/

/- ### sr.py -/

/-- Python `round` on a rational: round half to even (banker's rounding),
as Python 3's built-in `round` behaves on the values reached by
`sm2_update` (`int(round(interval * ease))`, sr.py line 28). -/
def pyRound (q : ℚ) : ℤ :=
  let f : ℤ := ⌊q⌋
  let frac : ℚ := q - f
  if frac < 1/2 then f
  else if 1/2 < frac then f + 1
  else if f % 2 = 0 then f else f + 1

/-- `sm2_update(repetitions, interval, ease, quality)` from sr.py lines
11-31.  Returns `(new_repetitions, new_interval_days, new_ease_factor)`.
The branch on `quality < 3` resets repetitions and interval; otherwise the
repetition count is incremented and the interval grows as in SM-2.  The
ease factor is updated last, from the *input* ease, exactly as in the
source (line 30 executes after the branch). -/
def sm2_update (repetitions : ℤ) (interval : ℚ) (ease : ℚ) (quality : ℤ) :
    ℤ × ℤ × ℚ :=
  let ri : ℤ × ℤ :=
    if quality < 3 then (0, 1)
    else
      let reps := repetitions + 1
      if reps = 1 then (reps, 1)
      else if reps = 2 then (reps, 6)
      else (reps, pyRound (interval * ease))
  let ease' : ℚ :=
    max 1.3 (ease + (0.1 - ((5 : ℚ) - quality) * (0.08 + ((5 : ℚ) - quality) * 0.02)))
  (ri.1, ri.2, ease')

/-- `quality_from_answer(correct, pre_eval, post_eval)` from sr.py lines
34-48: incorrect answers score 2; correct answers score 4, promoted to 5
when the evaluation swing exceeds 3.0. -/
def quality_from_answer (correct : Bool) (pre_eval post_eval : Option ℚ) : ℤ :=
  if !correct then 2
  else
    match pre_eval, post_eval with
    | some pre, some post => if |pre - post| > 3 then 5 else 4
    | _, _ => 4

/- ### selection.py -/

/-- A stored timestamp as `selection.py` sees it: the attribute can be
absent/`None` (`missing`), an ISO string that fails to parse
(`unparsable`, included conservatively by the source), or a parsed,
UTC-normalized instant (`t`, in minutes).  The source's naive/aware
normalization (lines 47-48 and 78-79) is the identity here: an instant is
already absolute. -/
inductive TimeVal where
  | missing : TimeVal
  | unparsable : TimeVal
  | t : ℤ → TimeVal
  deriving DecidableEq

/-- A puzzle record as consumed by `selection.py` (duck-typed via `getattr`
in the source): `weight := none` models an object with no `weight`
attribute (`getattr(p, 'weight', 1.0)` then defaults to `1.0`). -/
structure Puzzle where
  weight : Option ℚ
  next_review : TimeVal
  last_reviewed : TimeVal
  tag : Option String
  deriving DecidableEq

/-- `getattr(p, 'weight', 1.0)` (selection.py lines 14 and 20). -/
def pweight (p : Puzzle) : ℚ := p.weight.getD 1

/-- The cumulative-sum scan of `choose_weighted` (selection.py lines 18-23):
`upto` accumulates the weights; the first puzzle whose cumulative weight
reaches the draw point `r` is returned, and if the loop falls through,
the last element (`lst[-1]`) is returned. -/
def chooseScan (r : ℚ) : ℚ → List Puzzle → Option Puzzle
  | _, [] => none
  | upto, p :: rest =>
    if r ≤ upto + pweight p then some p
    else
      match chooseScan r (upto + pweight p) rest with
      | some q => some q
      | none => some p

/-- The `total = sum(getattr(p, 'weight', 1.0) for p in lst)` local of
`choose_weighted` (selection.py line 14).  Throughout, the two random
draws of the source are explicit arguments: `r01` stands for
`random.random()` and `k` selects the index for `random.choice` (taken
modulo the length, as `random.choice` always picks a valid index). -/
def totalWeight (lst : List Puzzle) : ℚ := (lst.map pweight).sum

/-- `choose_weighted(lst)`, continued (selection.py lines 12-23): empty
list gives `None`; a non-positive total falls back to a uniform
`random.choice`; otherwise the draw point is `random.random() * total`
and the cumulative scan picks the puzzle. -/
def choose_weighted (r01 : ℚ) (k : ℕ) (lst : List Puzzle) : Option Puzzle :=
  if lst.isEmpty then none
  else if totalWeight lst ≤ 0 then lst[k % lst.length]?
  else chooseScan (r01 * totalWeight lst) 0 lst

/-- The cooldown test of `filter_recent` (selection.py lines 30-53): a
puzzle passes when it was never reviewed, its stored timestamp cannot be
parsed, or its last review is at or before the cutoff. -/
def passesCooldown (cutoff : ℤ) (p : Puzzle) : Bool :=
  match p.last_reviewed with
  | .missing => true
  | .unparsable => true
  | .t lr => lr ≤ cutoff

/-- `filter_recent(puzzles, cooldown_minutes)` (selection.py lines 26-54):
drop puzzles reviewed after `now - cooldown_minutes`. -/
def filter_recent (cooldown_minutes now : ℤ) (puzzles : List Puzzle) : List Puzzle :=
  puzzles.filter (passesCooldown (now - cooldown_minutes))

/-- The due test of `select_puzzle` (selection.py lines 61-83): a puzzle is
due when `next_review` is absent, unparsable, or at or before `now`. -/
def isDue (now : ℤ) (p : Puzzle) : Bool :=
  match p.next_review with
  | .missing => true
  | .unparsable => true
  | .t nr => nr ≤ now

/-- The tag test of `select_puzzle` (selection.py line 108):
`getattr(p, 'tag', None) and str(...).strip().lower() in tag_filters` —
a falsy (absent or empty) tag is excluded, otherwise the trimmed,
lowercased tag must be among the filters. -/
def matchesTagFilters (tag_filters : List String) (p : Puzzle) : Bool :=
  match p.tag with
  | none => false
  | some s => !(s == "") && tag_filters.contains (s.trim.toLower)

/-- The due- and tag-filtered pool of `select_puzzle` (selection.py lines
60-108), before the cooldown filter is applied.  `tag_filters` is the
resolved filter list that lines 91-106 of the source compute from the
user's `tag_filters` property or their `settings_tags` JSON/CSV setting;
the source applies it only when it is non-empty (`if tag_filters:`). -/
def candidate_pool (tag_filters : List String) (all_puzzles : List Puzzle)
    (due_only : Bool) (now : ℤ) : List Puzzle :=
  let due := if due_only then all_puzzles.filter (isDue now) else all_puzzles
  if tag_filters.isEmpty then due else due.filter (matchesTagFilters tag_filters)

/-- `select_puzzle(user, all_puzzles, due_only, cooldown_minutes)`
(selection.py lines 57-117): weighted draw over the due/tag/cooldown
filtered pool; if that yields nothing, fall back to a draw over the full
pool filtered only by cooldown.  `r1, k1` and `r2, k2` are the explicit
random sources for the primary and fallback draws. -/
def select_puzzle (tag_filters : List String) (all_puzzles : List Puzzle)
    (due_only : Bool) (cooldown_minutes now : ℤ)
    (r1 : ℚ) (k1 : ℕ) (r2 : ℚ) (k2 : ℕ) : Option Puzzle :=
  match choose_weighted r1 k1
      (filter_recent cooldown_minutes now
        (candidate_pool tag_filters all_puzzles due_only now)) with
  | some chosen => some chosen
  | none =>
    choose_weighted r2 k2 (filter_recent cooldown_minutes now all_puzzles)

/- ### pgn_parser.py (live) and parser.py (legacy rule) -/

/-- Numeric value of a list of decimal digit characters, most significant
first. -/
def digitsVal (cs : List Char) : ℕ :=
  cs.foldl (fun a c => 10 * a + (c.toNat - 48)) 0

/-- Value contributed by the digits after the decimal point. -/
def fracVal (cs : List Char) : ℚ :=
  cs.foldr (fun c a => (((c.toNat - 48 : ℕ) : ℚ) + a) / 10) 0

/-- Python `float()` on a token matched by the `[-0-9.]+` character class
of `EVAL_RE` (pgn_parser.py line 17, parser.py line 14): an optional
leading minus followed by digits with at most one decimal point and at
least one digit.  Anything else over that character class (an interior
minus, several dots, no digits) makes `float(...)` raise in Python, which
the analyzer catches; it is embedded as `none`. -/
def pyFloat (s : String) : Option ℚ :=
  let cs := s.data
  let neg : Bool := match cs with | c :: _ => c = '-' | [] => false
  let body := if neg then cs.drop 1 else cs
  if body.any (fun c => !(c.isDigit || c = '.')) then none
  else if 1 < (body.filter (fun c => c = '.')).length then none
  else if !body.any Char.isDigit then none
  else
    let intPart := body.takeWhile (fun c => c ≠ '.')
    let fracPart := (body.dropWhile (fun c => c ≠ '.')).drop 1
    let v : ℚ := (digitsVal intPart : ℚ) + fracVal fracPart
    some (if neg then -v else v)

/-- One comment string as the analyzer sees it, abstracted at the
regular-expression layer supplied by Python's `re` module: `empty` is the
falsiness test of `parse_comment_for_eval` (`if not comment`),
`evalMatch` holds the two number substrings captured by `EVAL_RE` when it
matches, `hasBlunder`..`hasError` are the four case-insensitive substring
tests, and `suggested` is the result of `extract_suggested_san`, which
returns a SAN-shaped token from the comment text or `None`.  Conversion
of the captured number strings (`float(...)`, wrapped in `try/except`) is
modeled exactly by `pyFloat`. -/
structure RawComment where
  empty : Bool
  evalMatch : Option (String × String)
  hasBlunder : Bool
  hasMistake : Bool
  hasInaccuracy : Bool
  hasError : Bool
  suggested : Option String
  deriving DecidableEq

/-- The `CommentaryFinding` record: the dict returned by
`parse_comment_for_eval` (pgn_parser.py line 95). -/
structure Finding where
  pre_eval : Option ℚ
  post_eval : Option ℚ
  tag : Option String
  suggested : Option String
  deriving DecidableEq

/-- The evaluation-pair extraction of `parse_comment_for_eval`
(pgn_parser.py lines 64-95, identical in parser.py lines 63-94): both
evaluations are set only when the pattern matched and both floats parse;
a `float(...)` failure on either captured string is caught and sets both
to `None`. -/
def evalPair (m : Option (String × String)) : Option ℚ × Option ℚ :=
  match m with
  | none => (none, none)
  | some (a, b) =>
    match pyFloat a, pyFloat b with
    | some x, some y => (some x, some y)
    | _, _ => (none, none)

/-- The severity scan of `parse_comment_for_eval` (pgn_parser.py lines
78-87): case-insensitive substring priority scan. -/
def severityTag (c : RawComment) : Option String :=
  if c.hasBlunder then some "Blunder"
  else if c.hasMistake then some "Mistake"
  else if c.hasInaccuracy then some "Inaccuracy"
  else if c.hasError then some "Error"
  else none

/-- `parse_comment_for_eval(comment)`, continued: return `None` only when
the pair, the tag and the suggested move are all absent (pgn_parser.py
lines 92-95). -/
def parse_comment_for_eval (c : RawComment) : Option Finding :=
  if c.empty then none
  else
    let pp := evalPair c.evalMatch
    let tag := severityTag c
    if pp.1.isNone && pp.2.isNone && tag.isNone && c.suggested.isNone then none
    else some ⟨pp.1, pp.2, tag, c.suggested⟩

/-- The deep-loss exclusion rule of the legacy `parser.py` (line 126):
discard when `pre_eval < -1.5` and `post_eval < pre_eval`. -/
def simple_exclusion (pre post : ℚ) : Bool :=
  decide (pre < -1.5) && decide (post < pre)

/-- The legacy `parser.py` evaluates its exclusion test
`if pre < -1.5 and post < pre:` (line 126) directly on the parsed values,
with no `None` guard: when the severity-tagged comment carried no
parseable evaluation pair (`pre is None`), the first comparison raises a
`TypeError` in Python.  The partiality is embedded in `Except`; the
Python `and` short-circuits, so `post` is only touched when the first
test is true. -/
def legacy_deep_loss_test (pre post : Option ℚ) : Except String Bool :=
  match pre with
  | none => .error "TypeError: comparison of None with float"
  | some x =>
    if x < -1.5 then
      match post with
      | none => .error "TypeError: comparison of None with float"
      | some y => .ok (decide (y < x))
    else .ok false

/-- The generalized exclusion rule of the live `pgn_parser.py` (lines
130-139): discard when `abs(pre_eval) > 2.0`, the sign did **not** change
(`pre * post < 0` fails), and `abs(post_eval) > abs(pre_eval)`. -/
def generalized_exclusion (pre post : ℚ) : Bool :=
  decide (|pre| > 2) && !(decide (pre * post < 0)) && decide (|post| > |pre|)

/-- `sign_change` of pgn_parser.py lines 131-136: computed only when both
evaluations are present, `False` otherwise. -/
def signChangePair : Option ℚ → Option ℚ → Bool
  | some pre, some post => decide (pre * post < 0)
  | _, _ => false

/-- `skip_puzzle` of pgn_parser.py lines 130-139: the generalized
exclusion fires only when both evaluations are present. -/
def excludedPair : Option ℚ → Option ℚ → Bool
  | some pre, some post => generalized_exclusion pre post
  | _, _ => false

/-- `(meta.get('tag') or '').lower()` (pgn_parser.py line 120). -/
def tagStr (t : Option String) : String := (t.getD "").toLower

/-- The severities the live candidate builder accepts (pgn_parser.py line
120: `('blunder', 'mistake', 'inaccuracy')`). -/
def acceptedTags : List String := ["blunder", "mistake", "inaccuracy"]

/-- Python truthiness on an optional header string:
`if headers.get('White'):` treats a missing header and an empty string
alike as absent (pgn_parser.py lines 194-197). -/
def truthy : Option String → Option String
  | some s => if s == "" then none else some s
  | none => none

/-- Python `int()` on the `main_seconds` component of a time-control
header (pgn_parser.py line 204): optional sign, then at least one digit,
surrounding whitespace tolerated. -/
def pyInt (s : String) : Option ℤ :=
  let cs := s.trim.data
  let sb : Bool × List Char :=
    match cs with
    | '-' :: rest => (true, rest)
    | '+' :: rest => (false, rest)
    | _ => (false, cs)
  if sb.2.isEmpty then none
  else if sb.2.any (fun c => !c.isDigit) then none
  else some (if sb.1 then -(digitsVal sb.2 : ℤ) else (digitsVal sb.2 : ℤ))

/-- The time-control classification thresholds of pgn_parser.py lines
205-213. -/
def classify_tc (first : ℤ) : String :=
  if first < 180 then "Bullet"
  else if first ≤ 599 then "Blitz"
  else if first ≤ 1799 then "Rapid"
  else "Classical"

/-- `time_control_type` derivation (pgn_parser.py lines 199-217): only
done when the raw header contains a plus; an `int()` failure is swallowed
and the class left absent. -/
def timeControlTypeOf (tc_raw : String) : Option String :=
  if tc_raw.contains '+' then
    match pyInt ((tc_raw.splitOn "+").headD "") with
    | some first => some (classify_tc first)
    | none => none
  else none

/-- One mainline ply as `extract_puzzles_from_pgn` walks it: the data the
python-chess collaborator exposes at each node — the comment attached to
the arriving move, the SAN of the move played, the FEN before and after
the move, and the fullmove number and side to move of the position
before the move. -/
structure Ply where
  comment : RawComment
  sanPlayed : String
  fenBefore : String
  fenAfter : String
  fullmove : ℕ
  whiteToMove : Bool
  deriving DecidableEq

/-- One parsed game: the resolved id
(`headers.get('GameId', headers.get('Site', 'unknown'))`), the mainline
plies, and the header metadata the builder copies. -/
structure GameRec where
  gameId : String
  plies : List Ply
  white : Option String
  black : Option String
  date : Option String
  timeControl : Option String
  deriving DecidableEq

/-- The puzzle dict built in pgn_parser.py lines 179-217. -/
structure Candidate where
  game_id : String
  move_number : ℕ
  fen : String
  previous_fen : String
  correct_san : String
  pre_eval : Option ℚ
  post_eval : Option ℚ
  tag : Option String
  initial_weight : ℚ
  side : String
  white : Option String
  black : Option String
  date : Option String
  time_control : Option String
  time_control_type : Option String
  deriving DecidableEq

/-- Candidate construction for an accepted ply (pgn_parser.py lines
141-219): the position before the move is kept as `previous_fen`, the
position after the flagged move is where the puzzle starts, `correct_san`
is the suggested token, `swing = abs((pre or 0.0) - (post or 0.0))`, and
sign-changing swings are weighted up. -/
def mkCandidate (g : GameRec) (p : Ply) (meta : Finding) (sug : String) : Candidate :=
  let sc := signChangePair meta.pre_eval meta.post_eval
  let swing : ℚ := |meta.pre_eval.getD 0 - meta.post_eval.getD 0|
  let w : ℚ := if sc then max 5 (swing * 2) else max 1 swing
  { game_id := g.gameId
    move_number := p.fullmove
    fen := p.fenAfter
    previous_fen := p.fenBefore
    correct_san := sug
    pre_eval := meta.pre_eval
    post_eval := meta.post_eval
    tag := meta.tag
    initial_weight := w
    side := if p.whiteToMove then "white" else "black"
    white := truthy g.white
    black := truthy g.black
    date := truthy g.date
    time_control := truthy g.timeControl
    time_control_type :=
      match truthy g.timeControl with
      | some tc => timeControlTypeOf tc
      | none => none }

/-- The per-ply candidate decision of the live `extract_puzzles_from_pgn`
(pgn_parser.py lines 114-222): accept only comments whose severity is
blunder/mistake/inaccuracy, skip deep non-sign-changing worsenings
(`skip_puzzle`), and skip plies whose comment carries no suggested best
move (lines 147-154). -/
def processPly (g : GameRec) (p : Ply) : Option Candidate :=
  match parse_comment_for_eval p.comment with
  | none => none
  | some meta =>
    if acceptedTags.contains (tagStr meta.tag) then
      if excludedPair meta.pre_eval meta.post_eval then none
      else
        match meta.suggested with
        | none => none
        | some sug => some (mkCandidate g p meta sug)
    else none

/-- `extract_puzzles_from_pgn` restricted to one game: the candidates of
its mainline plies, in order. -/
def extract_game (g : GameRec) : List Candidate :=
  g.plies.filterMap (processPly g)

/-- `extract_puzzles_from_pgn(pgn_text)` (pgn_parser.py lines 98-224), the
PGN text already split into parsed games by the python-chess collaborator
(`chess.pgn.read_game` loop). -/
def extract_puzzles_from_pgn (games : List GameRec) : List Candidate :=
  (games.map extract_game).flatten

/- ### Concrete sample data used by witnesses and counterexamples -/

/-- A flagged Blunder comment with a parseable evaluation pair but no
suggested best move anywhere. -/
def noSuggestComment : RawComment :=
  { empty := false, evalMatch := some ("1.2", "-1.0"), hasBlunder := true,
    hasMistake := false, hasInaccuracy := false, hasError := false,
    suggested := none }

/-- The spec's sign-change weighting example: `pre 1.2 -> post -1.0`,
severity Blunder, suggested move `Nf3`. -/
def signSwingComment : RawComment :=
  { empty := false, evalMatch := some ("1.2", "-1.0"), hasBlunder := true,
    hasMistake := false, hasInaccuracy := false, hasError := false,
    suggested := some "Nf3" }

/-- A flagged Blunder comment whose captured evaluation numbers are
malformed (`1.2.3` has two decimal points, so Python `float` raises and
the analyzer swallows it). -/
def malformedComment : RawComment :=
  { empty := false, evalMatch := some ("1.2.3", "-1.0"), hasBlunder := true,
    hasMistake := false, hasInaccuracy := false, hasError := false,
    suggested := some "Nf3" }

/-- The deep-loss example of the spec: `pre -3.0 -> post -4.0`, severity
Blunder, with a suggested move present. -/
def deepLossComment : RawComment :=
  { empty := false, evalMatch := some ("-3.0", "-4.0"), hasBlunder := true,
    hasMistake := false, hasInaccuracy := false, hasError := false,
    suggested := some "Nf3" }

/-- Builds a one-ply game around a comment. -/
def plyWith (c : RawComment) : Ply :=
  { comment := c, sanPlayed := "Qxb2", fenBefore := "FEN0", fenAfter := "FEN1",
    fullmove := 12, whiteToMove := true }

/-- Builds a one-ply game record around a comment. -/
def gameWith (c : RawComment) : GameRec :=
  { gameId := "game-1", plies := [plyWith c], white := some "Alice",
    black := some "Bob", date := none, timeControl := some "600+5" }

/-- A selection-pool puzzle with weight 1 and no history. -/
def freshPuzzle : Puzzle :=
  { weight := some 1, next_review := .missing, last_reviewed := .missing,
    tag := none }

/-- C7 pool, at `now = 0` (minutes): due yesterday but reviewed one minute
ago. -/
def reviewedDuePuzzle : Puzzle :=
  { weight := some 1, next_review := .t (-1440), last_reviewed := .t (-1),
    tag := none }

/-- C7 pool, at `now = 0`: due only tomorrow, never reviewed. -/
def futurePuzzle : Puzzle :=
  { weight := some 1, next_review := .t 1440, last_reviewed := .missing,
    tag := none }

/-- C7 pool, at `now = 0`: no scheduled review, reviewed one minute ago. -/
def nullReviewPuzzle : Puzzle :=
  { weight := some 1, next_review := .missing, last_reviewed := .t (-1),
    tag := none }

/- ### Claims C3 and C5 -/

/-- Claim C3: for every state `(repetitions, interval, ease)` and quality in
`0..5`, `sm2_update` returns: if `quality < 3` then `repetitions' = 0` and
`interval' = 1`; otherwise `repetitions' = repetitions + 1` with
`interval' = 1` when `repetitions' = 1`, `6` when `repetitions' = 2`, and
`round(interval * ease)` otherwise; and in both branches
`ease' = max(1.3, ease + 0.1 - (5-quality)*(0.08 + (5-quality)*0.02))`. -/
theorem sm2_update_follows_sm2_recurrence (r : ℤ) (i e : ℚ) (q : ℤ)
    (hq0 : 0 ≤ q) (hq5 : q ≤ 5) :
    (sm2_update r i e q).2.2
        = max 1.3 (e + 0.1 - ((5 : ℚ) - q) * (0.08 + ((5 : ℚ) - q) * 0.02)) ∧
    (q < 3 → (sm2_update r i e q).1 = 0 ∧ (sm2_update r i e q).2.1 = 1) ∧
    (3 ≤ q → (sm2_update r i e q).1 = r + 1 ∧
      (r + 1 = 1 → (sm2_update r i e q).2.1 = 1) ∧
      (r + 1 = 2 → (sm2_update r i e q).2.1 = 6) ∧
      (r + 1 ≠ 1 → r + 1 ≠ 2 → (sm2_update r i e q).2.1 = pyRound (i * e))) := by
  refine ⟨?_, ?_, ?_⟩
  · simp only [sm2_update]
    ring_nf
  · intro hlt
    simp [sm2_update, hlt]
  · intro hge
    have hnlt : ¬ q < 3 := by omega
    refine ⟨?_, ?_, ?_, ?_⟩
    · simp only [sm2_update, hnlt, if_false]
      split
      · rfl
      · split
        · rfl
        · rfl
    · intro h1; simp [sm2_update, hnlt, h1]
    · intro h2
      have h1 : ¬ r + 1 = 1 := by omega
      simp [sm2_update, hnlt, h1, h2]
    · intro h1 h2
      simp [sm2_update, hnlt, h1, h2]

/-- Witness for C3 at the spec's "SM-2 growth" example
`sm2_update(2, 6, 2.5, 5)`: repetitions become 3 and the interval becomes
`round(6 * 2.5) = 15`. -/
theorem sm2_update_follows_sm2_recurrence_witness :
    ((sm2_update 2 6 2.5 5).2.2
        = max 1.3 ((2.5 : ℚ) + 0.1 - ((5 : ℚ) - 5) * (0.08 + ((5 : ℚ) - 5) * 0.02)) ∧
      ((5 : ℤ) < 3 → (sm2_update 2 6 2.5 5).1 = 0 ∧ (sm2_update 2 6 2.5 5).2.1 = 1) ∧
      ((3 : ℤ) ≤ 5 → (sm2_update 2 6 2.5 5).1 = 2 + 1 ∧
        ((2 : ℤ) + 1 = 1 → (sm2_update 2 6 2.5 5).2.1 = 1) ∧
        ((2 : ℤ) + 1 = 2 → (sm2_update 2 6 2.5 5).2.1 = 6) ∧
        ((2 : ℤ) + 1 ≠ 1 → (2 : ℤ) + 1 ≠ 2 →
          (sm2_update 2 6 2.5 5).2.1 = pyRound ((6 : ℚ) * 2.5)))) ∧
    (sm2_update 2 6 2.5 5).2.1 = 15 :=
  ⟨sm2_update_follows_sm2_recurrence 2 6 2.5 5 (by decide) (by decide),
   by with_unfolding_all rfl⟩

/-- Counterexample to claim C5 as stated: `sm2_update` does *not* clamp a
negative input repetition count.  With corrupted state
`repetitions = -2` and a passing answer (`quality = 4`), the returned
repetition count is `-1 < 0`: the claim that the returned repetitions
count is always at least 0 is false. -/
theorem sm2_update_negative_reps_not_clamped :
    (sm2_update (-2) 1 2.5 4).1 = -1 ∧ ¬ (0 ≤ (sm2_update (-2) 1 2.5 4).1) := by
  constructor <;> with_unfolding_all decide

/-- Claim C5 (amended): `sm2_update` is a total function and the returned
ease factor is at least 1.3 on *every* input, corrupted states included
(ease below the floor, negative repetitions); the returned repetitions
count is at least 0 whenever the input repetitions count is at least 0
(the `quality < 3` branch resets it to 0, the other branch increments
it).  A negative input repetitions count with `quality ≥ 3` is passed
through incremented, not clamped. -/
theorem sm2_update_ease_floor_and_reps (r : ℤ) (i e : ℚ) (q : ℤ) :
    (1.3 : ℚ) ≤ (sm2_update r i e q).2.2 ∧
    (0 ≤ r → 0 ≤ (sm2_update r i e q).1) := by
  constructor
  · simp only [sm2_update]
    exact le_max_left _ _
  · intro hr
    by_cases hlt : q < 3
    · simp [sm2_update, hlt]
    · simp only [sm2_update, hlt, if_false]
      split
      · exact (by omega : (0 : ℤ) ≤ r + 1)
      · split
        · exact (by omega : (0 : ℤ) ≤ r + 1)
        · exact (by omega : (0 : ℤ) ≤ r + 1)

/-- Witness for the amended C5 at the negative-repetitions corrupted state
`sm2_update(-2, 1, 2.5, 4)` of the counterexample: the ease floor holds
there too. -/
theorem sm2_update_ease_floor_and_reps_witness :
    (1.3 : ℚ) ≤ (sm2_update (-2) 1 2.5 4).2.2 :=
  (sm2_update_ease_floor_and_reps (-2) 1 2.5 4).1

/-- The ease clamp is exercised for real on corrupted state: with input ease
1.0 (below the 1.3 floor) and a failing answer, the returned ease is exactly
the 1.3 floor. -/
theorem sm2_update_ease_clamp_example :
    (sm2_update 0 0 1.0 1).2.2 = 1.3 := by
  with_unfolding_all rfl

/- ### Claims C6, C7, C10 (selection engine) -/

/-- The cumulative scan only ever returns an element of its input list. -/
theorem chooseScan_mem : ∀ (l : List Puzzle) (r upto : ℚ) (p : Puzzle),
    chooseScan r upto l = some p → p ∈ l := by
  intro l
  induction l with
  | nil => intro r upto p h; simp [chooseScan] at h
  | cons a rest ih =>
    intro r upto p h
    simp only [chooseScan] at h
    split at h
    · cases h
      exact List.mem_cons_self a rest
    · cases hm : chooseScan r (upto + pweight a) rest with
      | some q =>
        rw [hm] at h
        cases h
        exact List.mem_cons_of_mem a (ih _ _ _ hm)
      | none =>
        rw [hm] at h
        cases h
        exact List.mem_cons_self a rest

/-- On a non-empty list the cumulative scan always yields something (the
source falls back to `lst[-1]` after the loop). -/
theorem chooseScan_isSome (a : Puzzle) (rest : List Puzzle) (r upto : ℚ) :
    ∃ p, chooseScan r upto (a :: rest) = some p := by
  simp only [chooseScan]
  split
  · exact ⟨a, rfl⟩
  · cases hm : chooseScan r (upto + pweight a) rest with
    | some q => exact ⟨q, rfl⟩
    | none => exact ⟨a, rfl⟩

/-- `choose_weighted` only ever returns an element of its input list. -/
theorem choose_weighted_mem (r01 : ℚ) (k : ℕ) (lst : List Puzzle) (p : Puzzle)
    (h : choose_weighted r01 k lst = some p) : p ∈ lst := by
  unfold choose_weighted at h
  split at h
  · cases h
  · split at h
    · exact List.getElem?_mem h
    · exact chooseScan_mem lst _ 0 p h

/-- `choose_weighted` returns `None` exactly on the empty list. -/
theorem choose_weighted_eq_none_iff (r01 : ℚ) (k : ℕ) (lst : List Puzzle) :
    choose_weighted r01 k lst = none ↔ lst = [] := by
  constructor
  · intro h
    by_contra hne
    have hie : lst.isEmpty = false := by
      cases lst with
      | nil => exact absurd rfl hne
      | cons a rest => rfl
    unfold choose_weighted at h
    rw [hie] at h
    simp only [Bool.false_eq_true, if_false] at h
    split at h
    · have hlen : k % lst.length < lst.length :=
        Nat.mod_lt k (List.length_pos.mpr hne)
      rw [List.getElem?_eq_getElem hlen] at h
      cases h
    · cases lst with
      | nil => exact hne rfl
      | cons a rest =>
        obtain ⟨p, hp⟩ := chooseScan_isSome a rest (r01 * totalWeight (a :: rest)) 0
        rw [hp] at h
        cases h
  · intro h
    subst h
    rfl

/-- Claim C10: for every non-empty list of puzzles, `choose_weighted`
returns an element of that list and never `None`, regardless of the
puzzles' weights (zero, negative, or missing `weight` attributes — a
missing weight is read as 1.0); `None` is returned only for the empty
list. -/
theorem choose_weighted_total (r01 : ℚ) (k : ℕ) (lst : List Puzzle) :
    (choose_weighted r01 k lst = none ↔ lst = []) ∧
    ∀ p, choose_weighted r01 k lst = some p → p ∈ lst :=
  ⟨choose_weighted_eq_none_iff r01 k lst,
   fun p h => choose_weighted_mem r01 k lst p h⟩

/-- Witness for C10 on a concrete one-element pool: the draw lands on the
element, which the claim then places in the pool. -/
theorem choose_weighted_total_witness : freshPuzzle ∈ [freshPuzzle] :=
  (choose_weighted_total 0 0 [freshPuzzle]).2 freshPuzzle
    (by with_unfolding_all rfl)

/-- The due/tag-filtered pool is a sub-pool of the input pool. -/
theorem candidate_pool_subset (tf : List String) (l : List Puzzle)
    (d : Bool) (now : ℤ) (p : Puzzle) (hp : p ∈ candidate_pool tf l d now) :
    p ∈ l := by
  simp only [candidate_pool] at hp
  split at hp
  · split at hp
    · exact List.mem_filter.mp hp |>.1
    · exact hp
  · have hp' := (List.mem_filter.mp hp).1
    split at hp'
    · exact List.mem_filter.mp hp' |>.1
    · exact hp'

/-- With `due_only = true`, everything in the due/tag-filtered pool passes
the due test. -/
theorem candidate_pool_due (tf : List String) (l : List Puzzle) (now : ℤ)
    (p : Puzzle) (hp : p ∈ candidate_pool tf l true now) :
    isDue now p = true := by
  simp only [candidate_pool, if_pos rfl] at hp
  split at hp
  · exact (List.mem_filter.mp hp).2
  · exact (List.mem_filter.mp ((List.mem_filter.mp hp).1)).2

/-- Claim C6: `select_puzzle` returns a puzzle whenever some puzzle of the
full pool passes the cooldown filter — if the due/tag/cooldown-filtered
pool yields nothing, the fallback draw runs over the full pool with only
the cooldown filter — and it returns `None` exactly when even that
fallback pool is empty. -/
theorem select_puzzle_none_iff_nothing_cooled (tag_filters : List String)
    (pool : List Puzzle) (due_only : Bool) (cooldown now : ℤ)
    (r1 : ℚ) (k1 : ℕ) (r2 : ℚ) (k2 : ℕ) :
    select_puzzle tag_filters pool due_only cooldown now r1 k1 r2 k2 = none
      ↔ filter_recent cooldown now pool = [] := by
  unfold select_puzzle
  cases hc : choose_weighted r1 k1
      (filter_recent cooldown now (candidate_pool tag_filters pool due_only now)) with
  | none => exact choose_weighted_eq_none_iff r2 k2 _
  | some c =>
    constructor
    · intro h
      cases h
    · intro hfr
      exfalso
      have hm := choose_weighted_mem _ _ _ _ hc
      simp only [filter_recent] at hm
      have h1 := List.mem_filter.mp hm
      have hcp : c ∈ filter_recent cooldown now pool := by
        simp only [filter_recent]
        exact List.mem_filter.mpr ⟨candidate_pool_subset _ _ _ _ _ h1.1, h1.2⟩
      rw [hfr] at hcp
      cases hcp

/-- Shape of a successful selection: either the primary due/tag/cooldown
draw produced the puzzle, or that draw came up empty and the fallback
cooldown-only draw produced it. -/
theorem select_puzzle_eq_some (tag_filters : List String) (pool : List Puzzle)
    (due_only : Bool) (cooldown now : ℤ) (r1 : ℚ) (k1 : ℕ) (r2 : ℚ) (k2 : ℕ)
    (x : Puzzle)
    (h : select_puzzle tag_filters pool due_only cooldown now r1 k1 r2 k2 = some x) :
    choose_weighted r1 k1
        (filter_recent cooldown now (candidate_pool tag_filters pool due_only now))
      = some x ∨
    (choose_weighted r1 k1
        (filter_recent cooldown now (candidate_pool tag_filters pool due_only now))
      = none ∧
     choose_weighted r2 k2 (filter_recent cooldown now pool) = some x) := by
  unfold select_puzzle at h
  cases hc : choose_weighted r1 k1
      (filter_recent cooldown now (candidate_pool tag_filters pool due_only now)) with
  | none =>
    rw [hc] at h
    exact Or.inr ⟨rfl, h⟩
  | some c =>
    rw [hc] at h
    exact Or.inl h

/-- Counterexample to claim C7 as stated: with the three-puzzle pool
`next_review = now-1d / now+1d / null`, `due_only = true` *can* return the
`now+1d` item.  When both due puzzles were reviewed one minute ago and the
cooldown is 10 minutes, the primary filtered pool is empty and the
fallback — which skips the due filter — returns the `now+1d` puzzle. -/
theorem select_puzzle_returns_future_via_fallback :
    select_puzzle [] [reviewedDuePuzzle, futurePuzzle, nullReviewPuzzle]
        true 10 0 0 0 0 0 = some futurePuzzle ∧
    futurePuzzle.next_review = .t 1440 ∧ isDue 0 futurePuzzle = false := by
  refine ⟨?_, rfl, ?_⟩
  · with_unfolding_all rfl
  · with_unfolding_all rfl

/-- Claim C7 (amended): for the pool of three puzzles with `next_review`
at `now-1d`, `now+1d`, `null` (arbitrary weights, last-review stamps and
tags), a `due_only = true` selection never returns the `now+1d` item
*provided the due/tag/cooldown-filtered pool is non-empty*; when that
pool is empty the fallback skips the due filter and may return it. -/
theorem due_filter_never_yields_future (now : ℤ)
    (w1 w2 w3 : Option ℚ) (l1 l2 l3 : TimeVal) (g1 g2 g3 : Option String)
    (tf : List String) (cooldown : ℤ) (r1 : ℚ) (k1 : ℕ) (r2 : ℚ) (k2 : ℕ)
    (hne : filter_recent cooldown now
        (candidate_pool tf
          [⟨w1, .t (now - 1440), l1, g1⟩, ⟨w2, .t (now + 1440), l2, g2⟩,
           ⟨w3, .missing, l3, g3⟩] true now) ≠ []) :
    select_puzzle tf
        [⟨w1, .t (now - 1440), l1, g1⟩, ⟨w2, .t (now + 1440), l2, g2⟩,
         ⟨w3, .missing, l3, g3⟩] true cooldown now r1 k1 r2 k2
      ≠ some ⟨w2, .t (now + 1440), l2, g2⟩ := by
  intro h
  rcases select_puzzle_eq_some _ _ _ _ _ _ _ _ _ _ h with hc | ⟨hc, _⟩
  · have hm := choose_weighted_mem _ _ _ _ hc
    simp only [filter_recent] at hm
    have hdue := candidate_pool_due _ _ _ _ (List.mem_filter.mp hm).1
    simp only [isDue, decide_eq_true_eq] at hdue
    omega
  · exact hne ((choose_weighted_eq_none_iff _ _ _).mp hc)

/-- Witness for the amended C7: with nothing reviewed recently the primary
pool is non-empty, and the selection indeed avoids the `now+1d` item. -/
theorem due_filter_never_yields_future_witness :
    select_puzzle []
        [⟨some 1, .t ((0 : ℤ) - 1440), .missing, none⟩,
         ⟨some 1, .t ((0 : ℤ) + 1440), .missing, none⟩,
         ⟨some 1, .missing, .missing, none⟩] true 10 0 0 0 0 0
      ≠ some ⟨some 1, .t ((0 : ℤ) + 1440), .missing, none⟩ :=
  due_filter_never_yields_future 0 (some 1) (some 1) (some 1)
    .missing .missing .missing none none none [] 10 0 0 0 0
    (by with_unfolding_all decide)

/- ### Claims C1, C2, C4, C8, C9 (extraction) -/

/-- Claim C1: a ply whose finding has an accepted severity but no
suggested move yields no candidate (pgn_parser.py lines 147-154), and
every candidate that is produced carries, as its correct move, the
suggested token of its ply's finding verbatim — never the move actually
played. -/
theorem no_suggestion_discard_and_suggested_verbatim (g : GameRec) :
    (∀ p ∈ g.plies, ∀ f, parse_comment_for_eval p.comment = some f →
        acceptedTags.contains (tagStr f.tag) = true → f.suggested = none →
        processPly g p = none) ∧
    (∀ c ∈ extract_game g, ∃ p, p ∈ g.plies ∧ ∃ f,
        parse_comment_for_eval p.comment = some f ∧
        f.suggested = some c.correct_san) := by
  constructor
  · intro p hp f hf hacc hsug
    simp only [processPly, hf]
    rw [if_pos hacc]
    split
    · rfl
    · rw [hsug]
  · intro c hc
    simp only [extract_game] at hc
    obtain ⟨p, hp, hpc⟩ := List.mem_filterMap.mp hc
    refine ⟨p, hp, ?_⟩
    cases hf : parse_comment_for_eval p.comment with
    | none =>
      simp only [processPly, hf] at hpc
      cases hpc
    | some meta =>
      simp only [processPly, hf] at hpc
      split at hpc
      · split at hpc
        · cases hpc
        · cases hs : meta.suggested with
          | none => rw [hs] at hpc; cases hpc
          | some sug =>
            rw [hs] at hpc
            cases hpc
            refine ⟨meta, rfl, ?_⟩
            rw [hs]
            rfl
      · cases hpc

/-- Witness for C1: the flagged Blunder ply with a parseable evaluation
pair but no suggested move produces no candidate. -/
theorem no_suggestion_discard_witness :
    processPly (gameWith noSuggestComment) (plyWith noSuggestComment) = none :=
  (no_suggestion_discard_and_suggested_verbatim (gameWith noSuggestComment)).1
    (plyWith noSuggestComment) (by with_unfolding_all decide)
    ⟨some 1.2, some (-1), some "Blunder", none⟩
    (by with_unfolding_all decide)
    (by with_unfolding_all decide)
    rfl

/-- When either captured number string fails to parse, the analyzer
reports no evaluation pair at all (the `except` of pgn_parser.py lines
70-75 clears both). -/
theorem evalPair_eq_none_of_bad (m : Option (String × String))
    (hbad : ∀ a b, m = some (a, b) → pyFloat a = none ∨ pyFloat b = none) :
    evalPair m = (none, none) := by
  cases hm : m with
  | none => rfl
  | some ab =>
    obtain ⟨a, b⟩ := ab
    simp only [evalPair]
    rcases hbad a b hm with h | h
    · rw [h]
    · rw [h]
      cases pyFloat a <;> rfl

/-- A comment containing the word "blunder" is tagged `Blunder`
(pgn_parser.py lines 79-81). -/
theorem severityTag_blunder (c : RawComment) (hB : c.hasBlunder = true) :
    severityTag c = some "Blunder" := by
  simp [severityTag, hB]

/-- The tag `Blunder` is accepted by the builder (pgn_parser.py line
120). -/
theorem blunder_accepted :
    acceptedTags.contains (tagStr (some "Blunder")) = true := by
  with_unfolding_all decide

/-- Claim C2: extraction never raises.  A comment whose captured
evaluation numbers are malformed (or which has no evaluation pattern at
all) is treated as "no pair found": the analyzer still returns a finding,
and a ply carrying such a severity-tagged comment is processed normally —
skipped when no best move is suggested, or accepted with the default
weight 1 (the swing defaults to `abs(0.0 - 0.0)`) when one is.  No code
path raises: the embedding is a total function and every case of the
severity-word/no-pair input is covered below. -/
theorem malformed_numbers_treated_as_no_pair (c : RawComment) (g : GameRec)
    (p : Ply) (hB : c.hasBlunder = true) (hne : c.empty = false)
    (hbad : ∀ a b, c.evalMatch = some (a, b) → pyFloat a = none ∨ pyFloat b = none)
    (hpc : p.comment = c) :
    parse_comment_for_eval c = some ⟨none, none, some "Blunder", c.suggested⟩ ∧
    (c.suggested = none → processPly g p = none) ∧
    (∀ s, c.suggested = some s →
      processPly g p
          = some (mkCandidate g p ⟨none, none, some "Blunder", c.suggested⟩ s) ∧
      (mkCandidate g p ⟨none, none, some "Blunder", c.suggested⟩ s).initial_weight
          = 1 ∧
      (mkCandidate g p ⟨none, none, some "Blunder", c.suggested⟩ s).correct_san
          = s) := by
  have hpp := evalPair_eq_none_of_bad c.evalMatch hbad
  have htag := severityTag_blunder c hB
  have hparse : parse_comment_for_eval c
      = some ⟨none, none, some "Blunder", c.suggested⟩ := by
    simp only [parse_comment_for_eval, hne, Bool.false_eq_true, if_false, hpp,
      htag, Option.isNone_some, Bool.and_false, Bool.false_and]
  refine ⟨hparse, ?_, ?_⟩
  · intro hsug
    simp only [processPly, hpc, hparse]
    rw [if_pos blunder_accepted]
    split
    · rfl
    · rw [hsug]
  · intro s hs
    refine ⟨?_, ?_, rfl⟩
    · simp only [processPly, hpc, hparse]
      rw [if_pos blunder_accepted]
      rw [hs]
      rfl
    · show (if signChangePair none none = true
          then max 5 (|(0 : ℚ) - 0| * 2) else max 1 |(0 : ℚ) - 0|) = 1
      norm_num [signChangePair]

/-- Witness for C2 on the concrete malformed comment (`1.2.3` does not
parse as a float): the finding carries no pair, and the ply is accepted
with the default weight 1. -/
theorem malformed_numbers_treated_as_no_pair_witness :
    parse_comment_for_eval malformedComment
      = some ⟨none, none, some "Blunder", malformedComment.suggested⟩ ∧
    (malformedComment.suggested = none →
      processPly (gameWith malformedComment) (plyWith malformedComment) = none) ∧
    (∀ s, malformedComment.suggested = some s →
      processPly (gameWith malformedComment) (plyWith malformedComment)
          = some (mkCandidate (gameWith malformedComment) (plyWith malformedComment)
              ⟨none, none, some "Blunder", malformedComment.suggested⟩ s) ∧
      (mkCandidate (gameWith malformedComment) (plyWith malformedComment)
          ⟨none, none, some "Blunder", malformedComment.suggested⟩ s).initial_weight
          = 1 ∧
      (mkCandidate (gameWith malformedComment) (plyWith malformedComment)
          ⟨none, none, some "Blunder", malformedComment.suggested⟩ s).correct_san
          = s) :=
  malformed_numbers_treated_as_no_pair malformedComment
    (gameWith malformedComment) (plyWith malformedComment) rfl rfl
    (by
      intro a b h
      have h1 := Option.some.inj (show some ("1.2.3", "-1.0") = some (a, b) from h)
      injection h1 with ha hb
      subst ha
      exact Or.inl (by with_unfolding_all decide))
    rfl

/-- Claim C4: every produced candidate with both evaluations present has
`initial_weight = max(5.0, swing * 2.0)` when the evaluation changed sign
across the move (`pre * post < 0`, pgn_parser.py line 134) and
`max(1.0, swing)` otherwise, where `swing = |pre_eval - post_eval|`. -/
theorem initial_weight_formula (g : GameRec) (c : Candidate)
    (hc : c ∈ extract_game g) (pre post : ℚ)
    (hpre : c.pre_eval = some pre) (hpost : c.post_eval = some post) :
    c.initial_weight =
      if pre * post < 0 then max 5 (|pre - post| * 2) else max 1 |pre - post| := by
  simp only [extract_game] at hc
  obtain ⟨p, hp, hpc⟩ := List.mem_filterMap.mp hc
  cases hf : parse_comment_for_eval p.comment with
  | none =>
    simp only [processPly, hf] at hpc
    cases hpc
  | some meta =>
    simp only [processPly, hf] at hpc
    split at hpc
    · split at hpc
      · cases hpc
      · cases hs : meta.suggested with
        | none => rw [hs] at hpc; cases hpc
        | some sug =>
          rw [hs] at hpc
          cases hpc
          have hpre' : meta.pre_eval = some pre := hpre
          have hpost' : meta.post_eval = some post := hpost
          simp only [mkCandidate, signChangePair, hpre', hpost', Option.getD_some]
          by_cases hsc : pre * post < 0 <;> simp [hsc]
    · cases hpc

/-- Witness for C4 at the spec's sign-change example (`1.2 -> -1.0`,
severity Blunder, suggested `Nf3`): the formula gives
`max(5.0, 2.2 * 2.0) = 5`. -/
theorem initial_weight_formula_witness :
    (mkCandidate (gameWith signSwingComment) (plyWith signSwingComment)
        ⟨some 1.2, some (-1), some "Blunder", some "Nf3"⟩ "Nf3").initial_weight
      = (if (1.2 : ℚ) * (-1) < 0 then max 5 (|(1.2 : ℚ) - (-1)| * 2)
         else max 1 |(1.2 : ℚ) - (-1)|) ∧
    (if (1.2 : ℚ) * (-1) < 0 then max 5 (|(1.2 : ℚ) - (-1)| * 2)
     else max 1 |(1.2 : ℚ) - (-1)|) = 5 :=
  ⟨initial_weight_formula (gameWith signSwingComment) _
      (by with_unfolding_all decide) 1.2 (-1) rfl rfl,
   by with_unfolding_all rfl⟩

/-- The deep worsening pair `(-3, -4)` fires the generalized exclusion. -/
theorem deep_loss_pair_excluded :
    excludedPair (some (-3 : ℚ)) (some (-4 : ℚ)) = true := by
  with_unfolding_all decide

/-- Claim C8: a ply tagged Blunder or Mistake with `pre_eval = -3.0` and
`post_eval = -4.0` (already clearly lost, no sign change, getting worse)
is never emitted as a candidate: the deep-loss exclusion discards it
before the candidate is built. -/
theorem deep_loss_ply_discarded (g : GameRec) (p : Ply) (f : Finding)
    (hf : parse_comment_for_eval p.comment = some f)
    (_ht : f.tag = some "Blunder" ∨ f.tag = some "Mistake")
    (hpre : f.pre_eval = some (-3)) (hpost : f.post_eval = some (-4)) :
    processPly g p = none := by
  simp only [processPly, hf]
  split
  · rw [hpre, hpost, if_pos deep_loss_pair_excluded]
  · rfl

/-- Witness for C8 on the concrete deep-loss comment `-3.0 -> -4.0`. -/
theorem deep_loss_ply_discarded_witness :
    processPly (gameWith deepLossComment) (plyWith deepLossComment) = none :=
  deep_loss_ply_discarded (gameWith deepLossComment) (plyWith deepLossComment)
    ⟨some (-3), some (-4), some "Blunder", some "Nf3"⟩
    (by with_unfolding_all decide) (Or.inl rfl) rfl rfl

/-- Claim C9: the two exclusion-rule variants present in the source — the
simple rule of parser.py line 126 and the generalized rule of
pgn_parser.py lines 130-139 — are not equivalent, in both directions: at
`(pre, post) = (3, 4)` the generalized rule discards while the simple
rule keeps, and at `(-1.6, -1.7)` the simple rule discards while the
generalized rule keeps. -/
theorem exclusion_rules_not_equivalent :
    (generalized_exclusion 3 4 = true ∧ simple_exclusion 3 4 = false) ∧
    (simple_exclusion (-1.6) (-1.7) = true ∧
     generalized_exclusion (-1.6) (-1.7) = false) :=
  ⟨⟨by with_unfolding_all decide, by with_unfolding_all decide⟩,
   ⟨by with_unfolding_all decide, by with_unfolding_all decide⟩⟩

/- ### The legacy parser.py exclusion test -/

/-- On plies where both evaluations are present, the legacy line-126 test
computes exactly `simple_exclusion`. -/
theorem legacy_deep_loss_test_eq_simple (x y : ℚ) :
    legacy_deep_loss_test (some x) (some y) = .ok (simple_exclusion x y) := by
  simp only [legacy_deep_loss_test, simple_exclusion]
  by_cases h : x < -1.5 <;> simp [h]

/-- The legacy `parser.py` exclusion test raises on a severity-tagged
comment with no parseable evaluation pair (`pre is None`): the live
`pgn_parser.py` replaced it with a guarded test
(`if pre is not None and post is not None`, line 132) that cannot raise. -/
theorem legacy_deep_loss_test_raises_on_missing_pair :
    legacy_deep_loss_test none none
      = .error "TypeError: comparison of None with float" := rfl
